import Mathlib

/-!
Verification of the BH1750 ambient-light-sensor driver (`src/bh1750.c`).

The development shallowly embeds the driver: the instance struct becomes the
structure `DriverState`, every C function of the driver becomes a Lean
definition of the same name, transport activity (I2C writes/reads, timer
starts, completion-callback invocations) is recorded as a list of `Event`s,
and the transport callback armed by an I2C/timer request is recorded as a
`Pending` value.  An explicit session runner (`run`) replays a list of user
calls and environment deliveries, which lets concrete traces be evaluated.

Single-precision floating point (`float`) is modelled exactly over
unreduced rationals (`UQ`): `roundFloat` performs IEEE-754 binary32
round-to-nearest-even.  The model is exact for every value the driver
computes (all magnitudes lie well inside the normal range of binary32, far
from overflow and subnormals).
-/

/-! ## Result codes, modes and command constants (from bh1750.h / bh1750.c) -/

def BH1750_RESULT_CODE_OK : Nat := 0
def BH1750_RESULT_CODE_INVALID_ARG : Nat := 1
def BH1750_RESULT_CODE_OUT_OF_MEMORY : Nat := 2
def BH1750_RESULT_CODE_IO_ERR : Nat := 3
def BH1750_RESULT_CODE_DRIVER_ERR : Nat := 4
def BH1750_RESULT_CODE_INVALID_USAGE : Nat := 5
/-- Used by bh1750.c and its tests; the enum in the bh1750.h snapshot ends
at `INVALID_USAGE`, so `BUSY` is modelled as the next enumerator value (its
exact value is irrelevant, only its distinctness from the others). -/
def BH1750_RESULT_CODE_BUSY : Nat := 6

def BH1750_I2C_RESULT_CODE_OK : Nat := 0
def BH1750_I2C_RESULT_CODE_ERR : Nat := 1

def BH1750_MEAS_MODE_H_RES : Nat := 0
def BH1750_MEAS_MODE_H_RES2 : Nat := 1
def BH1750_MEAS_MODE_L_RES : Nat := 2

def BH1750_I2C_ADDR_ADDR_LOW : Nat := 0x23
def BH1750_I2C_ADDR_ADDR_HIGH : Nat := 0x5C

def BH1750_MAX_L_RES_MEAS_TIME_MS : Nat := 24
def BH1750_MAX_H_RES_MEAS_TIME_MS : Nat := 180

def BH1750_POWER_DOWN_CMD : Nat := 0x0
def BH1750_POWER_ON_CMD : Nat := 0x01
def BH1750_RESET_CMD : Nat := 0x07
def BH1750_START_CONTINUOUS_MEAS_H_RES_CMD : Nat := 0x10
def BH1750_START_CONTINUOUS_MEAS_H_RES2_CMD : Nat := 0x11
def BH1750_START_CONTINUOUS_MEAS_L_RES_CMD : Nat := 0x13
def BH1750_ONE_TIME_MEAS_H_RES_CMD : Nat := 0x20
def BH1750_ONE_TIME_MEAS_H_RES2_CMD : Nat := 0x21
def BH1750_ONE_TIME_MEAS_L_RES_CMD : Nat := 0x23
def BH1750_SET_MTREG_HIGH_BIT_CMD : Nat := 0x40
def BH1750_SET_MTREG_LOW_BIT_CMD : Nat := 0x60

def BH1750_MIN_MEAS_TIME : Nat := 31
def BH1750_MAX_MEAS_TIME : Nat := 254
def BH1750_DEFAULT_MEAS_TIME : Nat := 69

/-! ## Exact model of IEEE-754 binary32 arithmetic

Nonnegative rationals are carried as unreduced numerator/denominator pairs
of naturals (`UQ`), so every operation is plain `Nat` arithmetic that the
kernel evaluates directly.  `roundFloat` performs the binary32
round-to-nearest-even; it is exact for values `v` with `v = 0` or
`2 ^ (-40) ≤ v < 2 ^ 24`, which covers every value the driver's float
expressions produce (overflow and subnormals are far outside the driver's
range and are not modelled).  Every C float operation (`a / b`, `a * b`)
is modelled as the exact rational operation followed by `roundFloat`. -/

/-- An unreduced nonnegative rational `num / den`. -/
structure UQ where
  num : Nat
  den : Nat
  deriving DecidableEq, Repr

/-- Exact conversion of a small natural to float (`(float)n` in C, exact
for `n < 2 ^ 24`). -/
def UQ.ofNat (n : Nat) : UQ := ⟨n, 1⟩

/-- Exact rational product (to be rounded by `roundFloat`). -/
def UQ.mul (a b : UQ) : UQ := ⟨a.num * b.num, a.den * b.den⟩

/-- Exact rational quotient (to be rounded by `roundFloat`). -/
def UQ.div (a b : UQ) : UQ := ⟨a.num * b.den, a.den * b.num⟩

/-- Structural-recursion binary logarithm: `log2p fuel n` is
`⌊log₂ n⌋` for `2 ≤ n < 2 ^ fuel` (and `0` for `n < 2`). -/
def log2p : Nat → Nat → Nat
  | 0, _ => 0
  | fuel + 1, n => if 2 ≤ n then log2p fuel (n / 2) + 1 else 0

/-- `⌊log₂ n⌋` for `1 ≤ n < 2 ^ 96`. -/
def natFloorLog2 (n : Nat) : Nat := log2p 96 n

/-- Round `a / b` (with `b > 0`) to the nearest natural, ties to even
(IEEE default rounding applied to the scaled significand). -/
def roundNearestEven (a b : Nat) : Nat :=
  let q := a / b
  let r := a % b
  if 2 * r < b then q
  else if b < 2 * r then q + 1
  else if q % 2 = 0 then q else q + 1

/-- Floor of the base-2 logarithm of `q` (for `q.num ≠ 0`,
`q ≥ 2 ^ (-40)`): scale by `2 ^ 40` so the floor is at least 1. -/
def UQ.floorLog2 (q : UQ) : Int :=
  (natFloorLog2 (q.num * 1099511627776 / q.den) : Int) - 40

/-- Round a nonnegative rational to the nearest IEEE-754 binary32 value
(round to nearest, ties to even): scale into `[2 ^ 23, 2 ^ 24)`, round the
significand, keep the power-of-two denominator. -/
def roundFloat (q : UQ) : UQ :=
  if q.num = 0 then ⟨0, 1⟩
  else
    let k : Int := q.floorLog2
    let sh : Nat := (23 - k).toNat
    ⟨roundNearestEven (q.num * 2 ^ sh) q.den, 2 ^ sh⟩

/-- C `lroundf` on the driver's nonnegative values: round to nearest
integer, halfway cases away from zero, i.e. `⌊q + 1/2⌋`. -/
def lroundf (q : UQ) : Nat := (2 * q.num + q.den) / (2 * q.den)

/-- C `ceilf` on the driver's values; the results the driver computes are
small integers, which binary32 represents exactly, so the exact ceiling
models it. -/
def ceilf (q : UQ) : Nat := (q.num + q.den - 1) / q.den

/-- The float literal `0.8333333f` (`BH1750_CONVERSION_MAGIC` in the
source, the precomputed value of `1.0f / 1.2f`): the compiler rounds the
decimal literal to the nearest binary32 value. -/
def BH1750_CONVERSION_MAGIC : UQ := roundFloat ⟨8333333, 10000000⟩

/-! ## Instance state, observable events, armed transport callbacks

`DriverState` embeds `struct BH1750Struct` (bh1750_private.h).  The injected
transport function pointers and their `user_data` are the session
environment and are not part of the state; `seq_cb` models whether the
stored completion callback is non-null; the stored output pointer `meas_p`
is abstracted, the write through it appears as `Event.measOut`.  Transport
activity is recorded as `Event`s; the completion callback handed to an I2C
or timer request is recorded as a `Pending` value naming the driver's
internal callback function. -/

structure DriverState where
  i2c_addr : Nat
  seq_cb : Bool
  meas_time_to_set : Nat
  read_buf0 : Nat
  read_buf1 : Nat
  cont_meas_ongoing : Bool
  meas_mode : Nat
  meas_time : Nat
  initialized : Bool
  is_seq_ongoing : Bool
  deriving DecidableEq, Repr

/-- The driver's internal I2C completion callbacks (the functions passed as
`cb` to `i2c_write` / `i2c_read` in the source). -/
inductive I2CCont where
  | generic
  | initPart2
  | setMeasTimePart2
  | setMeasTimePart3
  | readMeasFinalPart
  | startContPart2
  | readOneTimePart2
  deriving DecidableEq, Repr

/-- The driver's internal timer expiry callbacks. -/
inductive TimerCont where
  | readOneTimePart3
  deriving DecidableEq, Repr

/-- A transport request in flight, carrying the driver callback it will
invoke on completion. -/
inductive Pending where
  | i2cWrite (cont : I2CCont)
  | i2cRead (cont : I2CCont)
  | timer (cont : TimerCont)
  deriving DecidableEq, Repr

/-- Externally observable actions of the driver.  `userCb rc flag` records
an invocation of the stored user completion callback with result code `rc`;
`flag` is the value of `is_seq_ongoing` at the moment of the invocation.
`ret rc` records the immediate return value of a public call in a session
trace. -/
inductive Event where
  | i2cWriteCmd (cmd : Nat)
  | i2cReadReq (len : Nat)
  | timerStart (period_ms : Nat)
  | userCb (rc : Nat) (seq_flag_at_call : Bool)
  | measOut (lx : Nat)
  | freeInstance
  | ret (rc : Nat)
  deriving DecidableEq, Repr

/-! ## Validators and register codec (bh1750.c lines 55-207) -/

def is_valid_i2c_addr (i2c_addr : Nat) : Bool :=
  i2c_addr == BH1750_I2C_ADDR_ADDR_LOW || i2c_addr == BH1750_I2C_ADDR_ADDR_HIGH

/-- Init config: mandatory callbacks are modelled by their non-nullness. -/
structure BH1750InitConfig where
  get_instance_memory : Bool
  i2c_write : Bool
  i2c_read : Bool
  start_timer : Bool
  i2c_addr : Nat
  deriving DecidableEq, Repr

def is_valid_init_cfg (cfg : BH1750InitConfig) : Bool :=
  cfg.get_instance_memory && cfg.i2c_write && cfg.i2c_read && cfg.start_timer
    && is_valid_i2c_addr cfg.i2c_addr

def is_valid_meas_mode (meas_mode : Nat) : Bool :=
  meas_mode == BH1750_MEAS_MODE_H_RES || meas_mode == BH1750_MEAS_MODE_H_RES2
    || meas_mode == BH1750_MEAS_MODE_L_RES

def is_valid_meas_time (meas_time : Nat) : Bool :=
  decide (BH1750_MIN_MEAS_TIME ≤ meas_time) && decide (meas_time ≤ BH1750_MAX_MEAS_TIME)

def two_big_endian_bytes_to_uint16 (b0 b1 : Nat) : Nat :=
  (b0 <<< 8) ||| b1

def get_three_msb_of_meas_time (meas_time : Nat) : Nat :=
  meas_time >>> 5

def get_five_lsb_of_meas_time (meas_time : Nat) : Nat :=
  meas_time &&& 0x1F

def get_start_cont_meas_cmd_code (meas_mode : Nat) : Nat :=
  if meas_mode = BH1750_MEAS_MODE_H_RES then BH1750_START_CONTINUOUS_MEAS_H_RES_CMD
  else if meas_mode = BH1750_MEAS_MODE_H_RES2 then BH1750_START_CONTINUOUS_MEAS_H_RES2_CMD
  else if meas_mode = BH1750_MEAS_MODE_L_RES then BH1750_START_CONTINUOUS_MEAS_L_RES_CMD
  else BH1750_START_CONTINUOUS_MEAS_H_RES_CMD

def get_one_time_meas_cmd_code (meas_mode : Nat) : Nat :=
  if meas_mode = BH1750_MEAS_MODE_H_RES then BH1750_ONE_TIME_MEAS_H_RES_CMD
  else if meas_mode = BH1750_MEAS_MODE_H_RES2 then BH1750_ONE_TIME_MEAS_H_RES2_CMD
  else if meas_mode = BH1750_MEAS_MODE_L_RES then BH1750_ONE_TIME_MEAS_L_RES_CMD
  else BH1750_ONE_TIME_MEAS_H_RES_CMD

/-! ## Sequence bookkeeping and command senders (bh1750.c lines 219-399) -/

def start_sequence (s : DriverState) (cb : Bool) : DriverState :=
  { s with seq_cb := cb, is_seq_ongoing := true }

def end_sequence (s : DriverState) : DriverState :=
  { s with is_seq_ongoing := false }

/-- Ends the sequence, then invokes the stored callback if it is non-null;
the emitted event snapshots `is_seq_ongoing` at the moment of invocation. -/
def execute_complete_cb (s : DriverState) (rc : Nat) : DriverState × List Event :=
  let s' := end_sequence s
  (s', if s'.seq_cb then [Event.userCb rc s'.is_seq_ongoing] else [])

def send_power_on_cmd (cont : I2CCont) : Pending × List Event :=
  (Pending.i2cWrite cont, [Event.i2cWriteCmd BH1750_POWER_ON_CMD])

def send_power_down_cmd (cont : I2CCont) : Pending × List Event :=
  (Pending.i2cWrite cont, [Event.i2cWriteCmd BH1750_POWER_DOWN_CMD])

def send_reset_cmd (cont : I2CCont) : Pending × List Event :=
  (Pending.i2cWrite cont, [Event.i2cWriteCmd BH1750_RESET_CMD])

def send_read_meas_cmd (cont : I2CCont) : Pending × List Event :=
  (Pending.i2cRead cont, [Event.i2cReadReq 2])

def send_start_continuous_meas_cmd (meas_mode : Nat) (cont : I2CCont) : Pending × List Event :=
  (Pending.i2cWrite cont, [Event.i2cWriteCmd (get_start_cont_meas_cmd_code meas_mode)])

def send_one_time_meas_cmd (meas_mode : Nat) (cont : I2CCont) : Pending × List Event :=
  (Pending.i2cWrite cont, [Event.i2cWriteCmd (get_one_time_meas_cmd_code meas_mode)])

def set_mtreg_high_bit (val : Nat) (cont : I2CCont) : Nat × Option Pending × List Event :=
  if 7 < val then (BH1750_RESULT_CODE_INVALID_ARG, none, [])
  else (BH1750_RESULT_CODE_OK, some (Pending.i2cWrite cont),
        [Event.i2cWriteCmd (BH1750_SET_MTREG_HIGH_BIT_CMD ||| val)])

/-- On success the source returns `BH1750_I2C_RESULT_CODE_OK` (a source
quirk; it has the same numeric value as `BH1750_RESULT_CODE_OK`). -/
def set_mtreg_low_bit (val : Nat) (cont : I2CCont) : Nat × Option Pending × List Event :=
  if 31 < val then (BH1750_RESULT_CODE_INVALID_ARG, none, [])
  else (BH1750_I2C_RESULT_CODE_OK, some (Pending.i2cWrite cont),
        [Event.i2cWriteCmd (BH1750_SET_MTREG_LOW_BIT_CMD ||| val)])

/-! ## Measurement conversion (bh1750.c lines 413-435) -/

/-- Convert a raw measurement to lux; returns the result code and the value
written through `meas_lx` (if any). -/
def convert_raw_meas_to_lx (s : DriverState) (raw_meas : Nat) : Nat × Option Nat :=
  if s.meas_time = 0 then (BH1750_RESULT_CODE_INVALID_USAGE, none)
  else if s.meas_mode = BH1750_MEAS_MODE_H_RES then
    (BH1750_RESULT_CODE_OK, some (lroundf (roundFloat (UQ.mul (UQ.ofNat raw_meas)
      (roundFloat (UQ.mul BH1750_CONVERSION_MAGIC
        (roundFloat (UQ.div (UQ.ofNat 69) (UQ.ofNat s.meas_time)))))))))
  else if s.meas_mode = BH1750_MEAS_MODE_H_RES2 then
    (BH1750_RESULT_CODE_OK, some (lroundf (roundFloat (UQ.mul (UQ.ofNat raw_meas)
      (roundFloat (UQ.div (roundFloat (UQ.mul BH1750_CONVERSION_MAGIC
        (roundFloat (UQ.div (UQ.ofNat 69) (UQ.ofNat s.meas_time))))) (UQ.ofNat 2)))))))
  else if s.meas_mode = BH1750_MEAS_MODE_L_RES then
    (BH1750_RESULT_CODE_OK, some (lroundf (roundFloat (UQ.mul (UQ.ofNat raw_meas)
      BH1750_CONVERSION_MAGIC))))
  else (BH1750_RESULT_CODE_DRIVER_ERR, none)

/-! ## Sequence continuations (bh1750.c lines 437-607)

Each continuation is the faithful translation of the C callback of the same
name: it receives the transport result code and the instance pointer
(`Option DriverState`, `none` for a null `user_data`), and returns the new
state, the newly armed transport request (if any) and the emitted events. -/

def generic_i2c_complete_cb (result_code : Nat) (self : Option DriverState) :
    Option DriverState × Option Pending × List Event :=
  match self with
  | none => (none, none, [])
  | some s =>
    let rc := if result_code = BH1750_I2C_RESULT_CODE_OK then BH1750_RESULT_CODE_OK
              else BH1750_RESULT_CODE_IO_ERR
    let (s', evs) := execute_complete_cb s rc
    (some s', none, evs)

def set_meas_time_part_3 (result_code : Nat) (self : Option DriverState) :
    Option DriverState × Option Pending × List Event :=
  match self with
  | none => (none, none, [])
  | some s =>
    if result_code ≠ BH1750_I2C_RESULT_CODE_OK then
      let (s', evs) := execute_complete_cb s BH1750_RESULT_CODE_IO_ERR
      (some s', none, evs)
    else
      let s1 := { s with meas_time := s.meas_time_to_set, initialized := true }
      let (s2, evs) := execute_complete_cb s1 BH1750_RESULT_CODE_OK
      (some s2, none, evs)

def set_meas_time_part_2 (result_code : Nat) (self : Option DriverState) :
    Option DriverState × Option Pending × List Event :=
  match self with
  | none => (none, none, [])
  | some s =>
    if result_code ≠ BH1750_I2C_RESULT_CODE_OK then
      let (s', evs) := execute_complete_cb s BH1750_RESULT_CODE_IO_ERR
      (some s', none, evs)
    else
      let s1 := { s with meas_time :=
        (s.meas_time &&& 0x1F) ||| (get_three_msb_of_meas_time s.meas_time_to_set <<< 5) }
      let meas_time_five_lsb := get_five_lsb_of_meas_time s1.meas_time_to_set
      let (rc, pend, evs) := set_mtreg_low_bit meas_time_five_lsb I2CCont.setMeasTimePart3
      if rc ≠ BH1750_RESULT_CODE_OK then
        let (s2, evs2) := execute_complete_cb s1 BH1750_RESULT_CODE_DRIVER_ERR
        (some s2, none, evs ++ evs2)
      else (some s1, pend, evs)

/-- First step of the set-measurement-time chain; the return code of
`set_mtreg_high_bit` is ignored, exactly as in the source. -/
def set_meas_time_part_1 (s : DriverState) (meas_time : Nat) :
    DriverState × Option Pending × List Event :=
  let s1 := { s with meas_time_to_set := meas_time }
  let meas_time_three_msb := get_three_msb_of_meas_time meas_time
  let (_, pend, evs) := set_mtreg_high_bit meas_time_three_msb I2CCont.setMeasTimePart2
  (s1, pend, evs)

def init_part_2 (result_code : Nat) (self : Option DriverState) :
    Option DriverState × Option Pending × List Event :=
  match self with
  | none => (none, none, [])
  | some s =>
    if result_code ≠ BH1750_I2C_RESULT_CODE_OK then
      let (s', evs) := execute_complete_cb s BH1750_RESULT_CODE_IO_ERR
      (some s', none, evs)
    else
      let (s1, pend, evs) := set_meas_time_part_1 s s.meas_time_to_set
      (some s1, pend, evs)

def read_meas_final_part (result_code : Nat) (self : Option DriverState) :
    Option DriverState × Option Pending × List Event :=
  match self with
  | none => (none, none, [])
  | some s =>
    if result_code ≠ BH1750_I2C_RESULT_CODE_OK then
      let (s', evs) := execute_complete_cb s BH1750_RESULT_CODE_IO_ERR
      (some s', none, evs)
    else
      let raw_meas := two_big_endian_bytes_to_uint16 s.read_buf0 s.read_buf1
      let (rc, lx) := convert_raw_meas_to_lx s raw_meas
      if rc ≠ BH1750_RESULT_CODE_OK then
        let (s', evs) := execute_complete_cb s BH1750_RESULT_CODE_DRIVER_ERR
        (some s', none, evs)
      else
        let (s', evs) := execute_complete_cb s BH1750_RESULT_CODE_OK
        (some s', none, Event.measOut (lx.getD 0) :: evs)

def start_continuous_measurement_part_2 (result_code : Nat) (self : Option DriverState) :
    Option DriverState × Option Pending × List Event :=
  match self with
  | none => (none, none, [])
  | some s =>
    if result_code = BH1750_I2C_RESULT_CODE_OK then
      let s1 := { s with cont_meas_ongoing := true }
      let (s2, evs) := execute_complete_cb s1 BH1750_RESULT_CODE_OK
      (some s2, none, evs)
    else
      let (s', evs) := execute_complete_cb s BH1750_RESULT_CODE_IO_ERR
      (some s', none, evs)

def read_one_time_meas_part_3 (self : Option DriverState) :
    Option DriverState × Option Pending × List Event :=
  match self with
  | none => (none, none, [])
  | some s =>
    let (pend, evs) := send_read_meas_cmd I2CCont.readMeasFinalPart
    (some s, some pend, evs)

def read_one_time_meas_part_2 (result_code : Nat) (self : Option DriverState) :
    Option DriverState × Option Pending × List Event :=
  match self with
  | none => (none, none, [])
  | some s =>
    if result_code ≠ BH1750_I2C_RESULT_CODE_OK then
      let (s', evs) := execute_complete_cb s BH1750_RESULT_CODE_IO_ERR
      (some s', none, evs)
    else
      let timer_period : Nat :=
        if s.meas_mode = BH1750_MEAS_MODE_L_RES then BH1750_MAX_L_RES_MEAS_TIME_MS
        else
          ceilf (roundFloat (UQ.mul (UQ.ofNat BH1750_MAX_H_RES_MEAS_TIME_MS)
            (roundFloat (UQ.div (UQ.ofNat s.meas_time) (UQ.ofNat BH1750_DEFAULT_MEAS_TIME)))))
      (some s, some (Pending.timer TimerCont.readOneTimePart3), [Event.timerStart timer_period])

/-- Maps an armed I2C continuation name to its function. -/
def runI2CCont : I2CCont → Nat → Option DriverState →
    Option DriverState × Option Pending × List Event
  | I2CCont.generic => generic_i2c_complete_cb
  | I2CCont.initPart2 => init_part_2
  | I2CCont.setMeasTimePart2 => set_meas_time_part_2
  | I2CCont.setMeasTimePart3 => set_meas_time_part_3
  | I2CCont.readMeasFinalPart => read_meas_final_part
  | I2CCont.startContPart2 => start_continuous_measurement_part_2
  | I2CCont.readOneTimePart2 => read_one_time_meas_part_2

/-- Maps an armed timer continuation name to its function. -/
def runTimerCont : TimerCont → Option DriverState →
    Option DriverState × Option Pending × List Event
  | TimerCont.readOneTimePart3 => read_one_time_meas_part_3

/-! ## Public API (bh1750.c lines 609-794)

Each public function takes the instance as `Option DriverState` (`none` for
a null pointer) and the non-nullness of the caller-supplied pointers, and
returns the immediate result code, the new state, the newly armed transport
request (if any) and the emitted events. -/

/-- The instance populated by a successful `bh1750_create`.  Fields the C
code does not assign in `bh1750_create` (`seq_cb`, `meas_time_to_set`,
`read_buf`, `meas_mode`) hold uninitialized memory there and are never read
before being assigned; they are given fixed defaults here. -/
def created_state (cfg : BH1750InitConfig) : DriverState :=
  { i2c_addr := cfg.i2c_addr
    seq_cb := false
    meas_time_to_set := 0
    read_buf0 := 0
    read_buf1 := 0
    cont_meas_ongoing := false
    meas_mode := 0
    meas_time := 0
    initialized := false
    is_seq_ongoing := false }

/-- `bh1750_create`: returns the result code, the created instance (if any)
and the number of allocator invocations.  `alloc_non_null` is whether the
injected allocator returns non-null memory. -/
def bh1750_create (inst_non_null : Bool) (cfg : Option BH1750InitConfig)
    (alloc_non_null : Bool) : Nat × Option DriverState × Nat :=
  if !inst_non_null then (BH1750_RESULT_CODE_INVALID_ARG, none, 0)
  else
    match cfg with
    | none => (BH1750_RESULT_CODE_INVALID_ARG, none, 0)
    | some c =>
      if !is_valid_init_cfg c then (BH1750_RESULT_CODE_INVALID_ARG, none, 0)
      else if !alloc_non_null then (BH1750_RESULT_CODE_OUT_OF_MEMORY, none, 1)
      else (BH1750_RESULT_CODE_OK, some (created_state c), 1)

def bh1750_init (self : Option DriverState) (cb : Bool) :
    Nat × Option DriverState × Option Pending × List Event :=
  match self with
  | none => (BH1750_RESULT_CODE_INVALID_ARG, none, none, [])
  | some s =>
    if s.initialized then (BH1750_RESULT_CODE_INVALID_USAGE, some s, none, [])
    else
      let s1 := { start_sequence s cb with meas_time_to_set := BH1750_DEFAULT_MEAS_TIME }
      let (pend, evs) := send_power_on_cmd I2CCont.initPart2
      (BH1750_RESULT_CODE_OK, some s1, some pend, evs)

def bh1750_power_on (self : Option DriverState) (cb : Bool) :
    Nat × Option DriverState × Option Pending × List Event :=
  match self with
  | none => (BH1750_RESULT_CODE_INVALID_ARG, none, none, [])
  | some s =>
    if !s.initialized then (BH1750_RESULT_CODE_INVALID_USAGE, some s, none, [])
    else if s.is_seq_ongoing then (BH1750_RESULT_CODE_BUSY, some s, none, [])
    else
      let s1 := start_sequence s cb
      let (pend, evs) := send_power_on_cmd I2CCont.generic
      (BH1750_RESULT_CODE_OK, some s1, some pend, evs)

def bh1750_power_down (self : Option DriverState) (cb : Bool) :
    Nat × Option DriverState × Option Pending × List Event :=
  match self with
  | none => (BH1750_RESULT_CODE_INVALID_ARG, none, none, [])
  | some s =>
    if !s.initialized then (BH1750_RESULT_CODE_INVALID_USAGE, some s, none, [])
    else if s.is_seq_ongoing then (BH1750_RESULT_CODE_BUSY, some s, none, [])
    else
      let s1 := start_sequence s cb
      let (pend, evs) := send_power_down_cmd I2CCont.generic
      (BH1750_RESULT_CODE_OK, some s1, some pend, evs)

def bh1750_reset (self : Option DriverState) (cb : Bool) :
    Nat × Option DriverState × Option Pending × List Event :=
  match self with
  | none => (BH1750_RESULT_CODE_INVALID_ARG, none, none, [])
  | some s =>
    if !s.initialized then (BH1750_RESULT_CODE_INVALID_USAGE, some s, none, [])
    else if s.is_seq_ongoing then (BH1750_RESULT_CODE_BUSY, some s, none, [])
    else
      let s1 := start_sequence s cb
      let (pend, evs) := send_reset_cmd I2CCont.generic
      (BH1750_RESULT_CODE_OK, some s1, some pend, evs)

def bh1750_start_continuous_measurement (self : Option DriverState) (meas_mode : Nat)
    (cb : Bool) : Nat × Option DriverState × Option Pending × List Event :=
  match self with
  | none => (BH1750_RESULT_CODE_INVALID_ARG, none, none, [])
  | some s =>
    if !is_valid_meas_mode meas_mode then (BH1750_RESULT_CODE_INVALID_ARG, some s, none, [])
    else if !s.initialized then (BH1750_RESULT_CODE_INVALID_USAGE, some s, none, [])
    else if s.is_seq_ongoing then (BH1750_RESULT_CODE_BUSY, some s, none, [])
    else
      let s1 := { start_sequence s cb with meas_mode := meas_mode }
      let (pend, evs) := send_start_continuous_meas_cmd meas_mode I2CCont.startContPart2
      (BH1750_RESULT_CODE_OK, some s1, some pend, evs)

def bh1750_read_continuous_measurement (self : Option DriverState)
    (meas_lx_non_null : Bool) (cb : Bool) :
    Nat × Option DriverState × Option Pending × List Event :=
  match self with
  | none => (BH1750_RESULT_CODE_INVALID_ARG, none, none, [])
  | some s =>
    if !meas_lx_non_null then (BH1750_RESULT_CODE_INVALID_ARG, some s, none, [])
    else if !s.initialized || !s.cont_meas_ongoing then
      (BH1750_RESULT_CODE_INVALID_USAGE, some s, none, [])
    else if s.is_seq_ongoing then (BH1750_RESULT_CODE_BUSY, some s, none, [])
    else
      let s1 := start_sequence s cb
      let (pend, evs) := send_read_meas_cmd I2CCont.readMeasFinalPart
      (BH1750_RESULT_CODE_OK, some s1, some pend, evs)

def bh1750_read_one_time_measurement (self : Option DriverState) (meas_mode : Nat)
    (meas_lx_non_null : Bool) (cb : Bool) :
    Nat × Option DriverState × Option Pending × List Event :=
  match self with
  | none => (BH1750_RESULT_CODE_INVALID_ARG, none, none, [])
  | some s =>
    if !meas_lx_non_null || !is_valid_meas_mode meas_mode then
      (BH1750_RESULT_CODE_INVALID_ARG, some s, none, [])
    else if !s.initialized then (BH1750_RESULT_CODE_INVALID_USAGE, some s, none, [])
    else if s.is_seq_ongoing then (BH1750_RESULT_CODE_BUSY, some s, none, [])
    else
      let s1 := { start_sequence s cb with meas_mode := meas_mode }
      let (pend, evs) := send_one_time_meas_cmd meas_mode I2CCont.readOneTimePart2
      (BH1750_RESULT_CODE_OK, some s1, some pend, evs)

def bh1750_set_measurement_time (self : Option DriverState) (meas_time : Nat)
    (cb : Bool) : Nat × Option DriverState × Option Pending × List Event :=
  match self with
  | none => (BH1750_RESULT_CODE_INVALID_ARG, none, none, [])
  | some s =>
    if !is_valid_meas_time meas_time then (BH1750_RESULT_CODE_INVALID_ARG, some s, none, [])
    else if !s.initialized || s.cont_meas_ongoing then
      (BH1750_RESULT_CODE_INVALID_USAGE, some s, none, [])
    else if s.is_seq_ongoing then (BH1750_RESULT_CODE_BUSY, some s, none, [])
    else
      let (s1, pend, evs) := set_meas_time_part_1 (start_sequence s cb) meas_time
      (BH1750_RESULT_CODE_OK, some s1, pend, evs)

def bh1750_destroy (self : Option DriverState) (free_instance_memory : Bool) :
    Nat × Option DriverState × Option Pending × List Event :=
  match self with
  | none => (BH1750_RESULT_CODE_INVALID_ARG, none, none, [])
  | some s =>
    if s.is_seq_ongoing then (BH1750_RESULT_CODE_BUSY, some s, none, [])
    else (BH1750_RESULT_CODE_OK, some s, none,
          if free_instance_memory then [Event.freeInstance] else [])

/-! ## Session runner

Replays a list of user calls and environment deliveries against one
instance.  The environment is assumed to honour the transport contract
(each completion callback invoked exactly once, on the driver's execution
context); a delivery consumes the armed `Pending` callback.  A public call
that arms a new transport request replaces the recorded `Pending`; the
traces proved below never leave more than one request outstanding at a
delivery. -/

structure Sess where
  st : DriverState
  pending : Option Pending
  deriving DecidableEq, Repr

inductive Cmd where
  | callInit (cb : Bool)
  | callPowerOn (cb : Bool)
  | callPowerDown (cb : Bool)
  | callReset (cb : Bool)
  | callStartContMeas (meas_mode : Nat) (cb : Bool)
  | callReadContMeas (meas_lx_non_null : Bool) (cb : Bool)
  | callReadOneTimeMeas (meas_mode : Nat) (meas_lx_non_null : Bool) (cb : Bool)
  | callSetMeasTime (meas_time : Nat) (cb : Bool)
  | callDestroy (free_instance_memory : Bool)
  | i2cComplete (result_code : Nat) (b0 b1 : Nat)
  | timerExpired
  deriving DecidableEq, Repr

/-- Incorporate a public call's outcome into the session; the immediate
return code is recorded as `Event.ret`. -/
def applyOp (sess : Sess) (r : Nat × Option DriverState × Option Pending × List Event) :
    Sess × List Event :=
  ({ st := r.2.1.getD sess.st
     pending := match r.2.2.1 with
                | some p => some p
                | none => sess.pending },
   Event.ret r.1 :: r.2.2.2)

def sessStep (sess : Sess) : Cmd → Sess × List Event
  | Cmd.callInit cb => applyOp sess (bh1750_init (some sess.st) cb)
  | Cmd.callPowerOn cb => applyOp sess (bh1750_power_on (some sess.st) cb)
  | Cmd.callPowerDown cb => applyOp sess (bh1750_power_down (some sess.st) cb)
  | Cmd.callReset cb => applyOp sess (bh1750_reset (some sess.st) cb)
  | Cmd.callStartContMeas m cb => applyOp sess (bh1750_start_continuous_measurement (some sess.st) m cb)
  | Cmd.callReadContMeas p cb => applyOp sess (bh1750_read_continuous_measurement (some sess.st) p cb)
  | Cmd.callReadOneTimeMeas m p cb => applyOp sess (bh1750_read_one_time_measurement (some sess.st) m p cb)
  | Cmd.callSetMeasTime t cb => applyOp sess (bh1750_set_measurement_time (some sess.st) t cb)
  | Cmd.callDestroy f => applyOp sess (bh1750_destroy (some sess.st) f)
  | Cmd.i2cComplete rc b0 b1 =>
    match sess.pending with
    | some (Pending.i2cWrite cont) =>
      let (ost, pend, evs) := runI2CCont cont rc (some sess.st)
      ({ st := ost.getD sess.st, pending := pend }, evs)
    | some (Pending.i2cRead cont) =>
      let st1 := if rc = BH1750_I2C_RESULT_CODE_OK then
                   { sess.st with read_buf0 := b0, read_buf1 := b1 }
                 else sess.st
      let (ost, pend, evs) := runI2CCont cont rc (some st1)
      ({ st := ost.getD st1, pending := pend }, evs)
    | _ => (sess, [])
  | Cmd.timerExpired =>
    match sess.pending with
    | some (Pending.timer cont) =>
      let (ost, pend, evs) := runTimerCont cont (some sess.st)
      ({ st := ost.getD sess.st, pending := pend }, evs)
    | _ => (sess, [])

def run (sess : Sess) : List Cmd → Sess × List Event
  | [] => (sess, [])
  | c :: cs =>
    let (sess1, evs) := sessStep sess c
    let (sess2, evs2) := run sess1 cs
    (sess2, evs ++ evs2)

/-! ## Concrete fixtures and helper notions used by the theorems -/

set_option maxRecDepth 100000

/-- A valid init config (all callbacks present, ADDR pin low address). -/
def test_cfg : BH1750InitConfig :=
  ⟨true, true, true, true, BH1750_I2C_ADDR_ADDR_LOW⟩

/-- Session right after a successful `bh1750_create`. -/
def fresh_sess : Sess := ⟨created_state test_cfg, none⟩

/-- An initialized idle instance with the given mode and measurement time,
used to state conversion facts. -/
def conversion_test_state (meas_mode meas_time : Nat) : DriverState :=
  { created_state test_cfg with
    meas_mode := meas_mode, meas_time := meas_time, initialized := true }

/-- The user-completion-callback invocations among a list of events. -/
def userCbEvents (evs : List Event) : List Event :=
  evs.filter fun e => match e with
    | Event.userCb _ _ => true
    | _ => false

/-- C6: conversion of raw 0x8390 under each mode and measurement time named
by the claim. -/
theorem c6_conversion_values :
    two_big_endian_bytes_to_uint16 0x83 0x90 = 33680 ∧
    convert_raw_meas_to_lx (conversion_test_state BH1750_MEAS_MODE_L_RES 69) 33680
      = (BH1750_RESULT_CODE_OK, some 28067) ∧
    convert_raw_meas_to_lx (conversion_test_state BH1750_MEAS_MODE_H_RES 69) 33680
      = (BH1750_RESULT_CODE_OK, some 28067) ∧
    convert_raw_meas_to_lx (conversion_test_state BH1750_MEAS_MODE_H_RES2 69) 33680
      = (BH1750_RESULT_CODE_OK, some 14033) ∧
    convert_raw_meas_to_lx (conversion_test_state BH1750_MEAS_MODE_H_RES 138) 33680
      = (BH1750_RESULT_CODE_OK, some 14033) := by
  refine ⟨by decide, by decide, by decide, by decide, by decide⟩

/-- C8: recombining the register codec's two fields reproduces every valid
measurement time exactly. -/
theorem c8_mtreg_roundtrip (t : Nat) (h1 : BH1750_MIN_MEAS_TIME ≤ t)
    (h2 : t ≤ BH1750_MAX_MEAS_TIME) :
    (get_three_msb_of_meas_time t <<< 5) ||| get_five_lsb_of_meas_time t = t := by
  have h1' : 31 ≤ t := h1
  have h2' : t ≤ 254 := h2
  have hlt : t < 255 := by omega
  exact (by decide :
    ∀ u : Nat, u < 255 → 31 ≤ u →
      (get_three_msb_of_meas_time u <<< 5) ||| get_five_lsb_of_meas_time u = u) t hlt h1'

/-- Witness for C8 at the concrete measurement time 31. -/
theorem c8_mtreg_roundtrip_witness :
    BH1750_MIN_MEAS_TIME ≤ 31 ∧ 31 ≤ BH1750_MAX_MEAS_TIME ∧
    (get_three_msb_of_meas_time 31 <<< 5) ||| get_five_lsb_of_meas_time 31 = 31 :=
  ⟨by decide, by decide, c8_mtreg_roundtrip 31 (by decide) (by decide)⟩

/-- C10: every internal transport-completion or timer-expiry callback, when
handed a null instance pointer, returns at once with no state, no new
transport request and no events. -/
theorem c10_null_instance_guard (result_code : Nat) :
    generic_i2c_complete_cb result_code none = (none, none, []) ∧
    init_part_2 result_code none = (none, none, []) ∧
    set_meas_time_part_2 result_code none = (none, none, []) ∧
    set_meas_time_part_3 result_code none = (none, none, []) ∧
    read_meas_final_part result_code none = (none, none, []) ∧
    start_continuous_measurement_part_2 result_code none = (none, none, []) ∧
    read_one_time_meas_part_2 result_code none = (none, none, []) ∧
    read_one_time_meas_part_3 none = (none, none, []) :=
  ⟨rfl, rfl, rfl, rfl, rfl, rfl, rfl, rfl⟩

/-- C9: `bh1750_create` rejects null pointers, invalid configs (missing
callback or illegal bus address) with `InvalidArgument`; a valid config
with a null allocator result yields `OutOfMemory` after exactly one
allocator call; success invokes the allocator exactly once and populates
the default state. -/
theorem c9_create_spec (c : BH1750InitConfig) (inst alloc : Bool) :
    bh1750_create false (some c) alloc = (BH1750_RESULT_CODE_INVALID_ARG, none, 0) ∧
    bh1750_create inst none alloc = (BH1750_RESULT_CODE_INVALID_ARG, none, 0) ∧
    bh1750_create true (some c) true =
      (if is_valid_init_cfg c then (BH1750_RESULT_CODE_OK, some (created_state c), 1)
       else (BH1750_RESULT_CODE_INVALID_ARG, none, 0)) ∧
    bh1750_create true (some c) false =
      (if is_valid_init_cfg c then (BH1750_RESULT_CODE_OUT_OF_MEMORY, none, 1)
       else (BH1750_RESULT_CODE_INVALID_ARG, none, 0)) ∧
    (is_valid_init_cfg c = true ↔
      (c.get_instance_memory = true ∧ c.i2c_write = true ∧ c.i2c_read = true ∧
       c.start_timer = true ∧
       (c.i2c_addr = BH1750_I2C_ADDR_ADDR_LOW ∨ c.i2c_addr = BH1750_I2C_ADDR_ADDR_HIGH))) ∧
    (created_state c).initialized = false ∧
    (created_state c).cont_meas_ongoing = false ∧
    (created_state c).is_seq_ongoing = false ∧
    (created_state c).meas_time = 0 ∧
    (created_state c).i2c_addr = c.i2c_addr := by
  refine ⟨?_, ?_, ?_, ?_, ?_, rfl, rfl, rfl, rfl, rfl⟩
  · simp [bh1750_create]
  · cases inst <;> simp [bh1750_create]
  · by_cases h : is_valid_init_cfg c <;> simp [bh1750_create, h]
  · by_cases h : is_valid_init_cfg c <;> simp [bh1750_create, h]
  · simp [is_valid_init_cfg, is_valid_i2c_addr, and_assoc]

/-- A legal interleaving of public operations after a successful create, in
which every transport completion callback is invoked exactly once: a fully
successful init; a fully successful set-measurement-time(32); a
set-measurement-time(31) whose high-bits write succeeds and whose low-bits
write fails; then a one-time measurement read whose transport steps all
succeed. -/
def meas_time_zero_trace : List Cmd := [
  Cmd.callInit true,
  Cmd.i2cComplete BH1750_I2C_RESULT_CODE_OK 0 0,
  Cmd.i2cComplete BH1750_I2C_RESULT_CODE_OK 0 0,
  Cmd.i2cComplete BH1750_I2C_RESULT_CODE_OK 0 0,
  Cmd.callSetMeasTime 32 true,
  Cmd.i2cComplete BH1750_I2C_RESULT_CODE_OK 0 0,
  Cmd.i2cComplete BH1750_I2C_RESULT_CODE_OK 0 0,
  Cmd.callSetMeasTime 31 true,
  Cmd.i2cComplete BH1750_I2C_RESULT_CODE_OK 0 0,
  Cmd.i2cComplete BH1750_I2C_RESULT_CODE_ERR 0 0,
  Cmd.callReadOneTimeMeas BH1750_MEAS_MODE_H_RES true true,
  Cmd.i2cComplete BH1750_I2C_RESULT_CODE_OK 0 0,
  Cmd.timerExpired,
  Cmd.i2cComplete BH1750_I2C_RESULT_CODE_OK 0x83 0x90]

/-- C2 (failing trace): after set-measurement-time(32) succeeds and a
subsequent set-measurement-time(31) loses its second write, the
measurement-time shadow of an initialized instance is 0
(`(32 &&& 0x1F) ||| (31 >>> 5 <<< 5) = 0`), and a following one-time
measurement completes by invoking the user callback with `DriverError` —
the event trace of the run contains `userCb DRIVER_ERR`. -/
theorem c2_driver_error_reachable :
    (run fresh_sess meas_time_zero_trace).1.st.initialized = true ∧
    (run fresh_sess meas_time_zero_trace).1.st.meas_time = 0 ∧
    ((run fresh_sess meas_time_zero_trace).2.contains
      (Event.userCb BH1750_RESULT_CODE_DRIVER_ERR false) = true) := by
  refine ⟨by decide, by decide, by decide⟩

/-- The instance state in the middle of the init sequence (init called, its
first transport completion not yet delivered): the sequence-in-progress
flag is set and the instance is not yet initialized. -/
def mid_init_state : DriverState := (run fresh_sess [Cmd.callInit true]).1.st

/-- C1 (counterexample): `bh1750_init`, invoked on an instance whose
sequence-in-progress flag is true (mid-init), does not return `Busy` — it
returns `Ok`, issues a new transport write and overwrites the sequence
state. -/
theorem c1_busy_gate_counterexample :
    mid_init_state.is_seq_ongoing = true ∧
    (bh1750_init (some mid_init_state) true).1 = BH1750_RESULT_CODE_OK ∧
    (bh1750_init (some mid_init_state) true).1 ≠ BH1750_RESULT_CODE_BUSY ∧
    (bh1750_init (some mid_init_state) true).2.2.2 =
      [Event.i2cWriteCmd BH1750_POWER_ON_CMD] := by
  refine ⟨by decide, by decide, by decide, by decide⟩

/-- The timer period the driver computes for a one-time measurement in a
high-resolution mode, over the whole valid measurement-time range, equals
the exact ceiling of `180 * mt / 69`. -/
theorem hres_timer_period_eq_ceil_div :
    ∀ mt : Nat, mt < 255 → 31 ≤ mt →
      ceilf (roundFloat (UQ.mul (UQ.ofNat BH1750_MAX_H_RES_MEAS_TIME_MS)
        (roundFloat (UQ.div (UQ.ofNat mt) (UQ.ofNat BH1750_DEFAULT_MEAS_TIME)))))
        = (180 * mt + 68) / 69 := by decide

/-- C7: after the one-shot command write succeeds, the requested timer
delay is the fixed constant 24 ms in low-resolution mode independently of
the measurement time, and in the two high-resolution modes it is
`⌈180 * mt / 69⌉` (ceiling); in particular measurement time 32 requests
exactly 84 ms. -/
theorem c7_one_time_timer_ceiling (s : DriverState) (mt : Nat)
    (h1 : 31 ≤ mt) (h2 : mt ≤ 254) :
    read_one_time_meas_part_2 BH1750_I2C_RESULT_CODE_OK
        (some { s with meas_mode := BH1750_MEAS_MODE_L_RES, meas_time := mt }) =
      (some { s with meas_mode := BH1750_MEAS_MODE_L_RES, meas_time := mt },
       some (Pending.timer TimerCont.readOneTimePart3),
       [Event.timerStart BH1750_MAX_L_RES_MEAS_TIME_MS]) ∧
    read_one_time_meas_part_2 BH1750_I2C_RESULT_CODE_OK
        (some { s with meas_mode := BH1750_MEAS_MODE_H_RES, meas_time := mt }) =
      (some { s with meas_mode := BH1750_MEAS_MODE_H_RES, meas_time := mt },
       some (Pending.timer TimerCont.readOneTimePart3),
       [Event.timerStart ((180 * mt + 68) / 69)]) ∧
    read_one_time_meas_part_2 BH1750_I2C_RESULT_CODE_OK
        (some { s with meas_mode := BH1750_MEAS_MODE_H_RES2, meas_time := mt }) =
      (some { s with meas_mode := BH1750_MEAS_MODE_H_RES2, meas_time := mt },
       some (Pending.timer TimerCont.readOneTimePart3),
       [Event.timerStart ((180 * mt + 68) / 69)]) ∧
    (180 * 32 + 68) / 69 = 84 := by
  have hlt : mt < 255 := by omega
  have hkey := hres_timer_period_eq_ceil_div mt hlt h1
  refine ⟨?_, ?_, ?_, by decide⟩
  · simp [read_one_time_meas_part_2, BH1750_I2C_RESULT_CODE_OK]
  · simp [read_one_time_meas_part_2, BH1750_I2C_RESULT_CODE_OK,
      BH1750_MEAS_MODE_H_RES, BH1750_MEAS_MODE_L_RES, hkey]
  · simp [read_one_time_meas_part_2, BH1750_I2C_RESULT_CODE_OK,
      BH1750_MEAS_MODE_H_RES2, BH1750_MEAS_MODE_L_RES, hkey]

/-- Witness for C7 at measurement time 32 (the never-83 instance). -/
theorem c7_one_time_timer_ceiling_witness :
    (31 ≤ 32 ∧ 32 ≤ 254) ∧
    read_one_time_meas_part_2 BH1750_I2C_RESULT_CODE_OK
        (some { conversion_test_state 0 0 with
                meas_mode := BH1750_MEAS_MODE_H_RES, meas_time := 32 }) =
      (some { conversion_test_state 0 0 with
              meas_mode := BH1750_MEAS_MODE_H_RES, meas_time := 32 },
       some (Pending.timer TimerCont.readOneTimePart3),
       [Event.timerStart ((180 * 32 + 68) / 69)]) ∧
    (180 * 32 + 68) / 69 = 84 :=
  ⟨⟨by decide, by decide⟩,
   (c7_one_time_timer_ceiling (conversion_test_state 0 0) 32
      (by decide) (by decide)).2.1,
   by decide⟩

/-- C1 (amended): with a sequence in progress, every public operation
except `bh1750_init` returns `Busy` with no state change, no new transport
request and no callback, provided its argument checks and its
lifecycle-precondition checks (which the code runs before the busy check)
pass; operations whose argument validation fails return `InvalidArgument`
instead.  `bh1750_init` performs no busy check at all: on an initialized
instance it returns `InvalidUsage`, and on a not-yet-initialized instance
(mid-init) it starts a new sequence and issues a new transport write. -/
theorem c1_busy_gate_amended (s : DriverState) (cb free meas_lx_nn : Bool)
    (meas_mode meas_time : Nat) :
    bh1750_power_on (some { s with initialized := true, is_seq_ongoing := true }) cb =
      (BH1750_RESULT_CODE_BUSY,
       some { s with initialized := true, is_seq_ongoing := true }, none, []) ∧
    bh1750_power_down (some { s with initialized := true, is_seq_ongoing := true }) cb =
      (BH1750_RESULT_CODE_BUSY,
       some { s with initialized := true, is_seq_ongoing := true }, none, []) ∧
    bh1750_reset (some { s with initialized := true, is_seq_ongoing := true }) cb =
      (BH1750_RESULT_CODE_BUSY,
       some { s with initialized := true, is_seq_ongoing := true }, none, []) ∧
    bh1750_start_continuous_measurement
        (some { s with initialized := true, is_seq_ongoing := true }) meas_mode cb =
      (if is_valid_meas_mode meas_mode then BH1750_RESULT_CODE_BUSY
       else BH1750_RESULT_CODE_INVALID_ARG,
       some { s with initialized := true, is_seq_ongoing := true }, none, []) ∧
    bh1750_read_continuous_measurement
        (some { s with initialized := true, cont_meas_ongoing := true, is_seq_ongoing := true }) meas_lx_nn cb =
      (if meas_lx_nn then BH1750_RESULT_CODE_BUSY else BH1750_RESULT_CODE_INVALID_ARG,
       some { s with initialized := true, cont_meas_ongoing := true, is_seq_ongoing := true }, none, []) ∧
    bh1750_read_one_time_measurement
        (some { s with initialized := true, is_seq_ongoing := true })
        meas_mode meas_lx_nn cb =
      (if meas_lx_nn && is_valid_meas_mode meas_mode then BH1750_RESULT_CODE_BUSY
       else BH1750_RESULT_CODE_INVALID_ARG,
       some { s with initialized := true, is_seq_ongoing := true }, none, []) ∧
    bh1750_set_measurement_time
        (some { s with initialized := true, cont_meas_ongoing := false, is_seq_ongoing := true }) meas_time cb =
      (if is_valid_meas_time meas_time then BH1750_RESULT_CODE_BUSY
       else BH1750_RESULT_CODE_INVALID_ARG,
       some { s with initialized := true, cont_meas_ongoing := false, is_seq_ongoing := true }, none, []) ∧
    bh1750_destroy (some { s with is_seq_ongoing := true }) free =
      (BH1750_RESULT_CODE_BUSY, some { s with is_seq_ongoing := true }, none, []) ∧
    bh1750_init (some { s with initialized := true, is_seq_ongoing := true }) cb =
      (BH1750_RESULT_CODE_INVALID_USAGE,
       some { s with initialized := true, is_seq_ongoing := true }, none, []) ∧
    bh1750_init (some { s with initialized := false, is_seq_ongoing := true }) cb =
      (BH1750_RESULT_CODE_OK,
       some { s with seq_cb := cb, meas_time_to_set := BH1750_DEFAULT_MEAS_TIME, initialized := false, is_seq_ongoing := true },
       some (Pending.i2cWrite I2CCont.initPart2),
       [Event.i2cWriteCmd BH1750_POWER_ON_CMD]) := by
  refine ⟨?_, ?_, ?_, ?_, ?_, ?_, ?_, ?_, ?_, ?_⟩
  · simp [bh1750_power_on]
  · simp [bh1750_power_down]
  · simp [bh1750_reset]
  · by_cases h : is_valid_meas_mode meas_mode <;>
      simp [bh1750_start_continuous_measurement, h]
  · cases meas_lx_nn <;> simp [bh1750_read_continuous_measurement]
  · by_cases h : is_valid_meas_mode meas_mode <;> cases meas_lx_nn <;>
      simp [bh1750_read_one_time_measurement, h]
  · by_cases h : is_valid_meas_time meas_time <;>
      simp [bh1750_set_measurement_time, h]
  · simp [bh1750_destroy]
  · simp [bh1750_init]
  · simp [bh1750_init, start_sequence, send_power_on_cmd]

/-- The instance state after a fully successful init sequence: initialized,
idle, default measurement time 69, `meas_mode` still at its create-time
value `H_RES`. -/
def initialized_state : DriverState :=
  (run fresh_sess [Cmd.callInit true,
    Cmd.i2cComplete BH1750_I2C_RESULT_CODE_OK 0 0,
    Cmd.i2cComplete BH1750_I2C_RESULT_CODE_OK 0 0,
    Cmd.i2cComplete BH1750_I2C_RESULT_CODE_OK 0 0]).1.st

/-- C4 (counterexample): starting continuous measurement in `L_RES` mode on
an instance whose stored mode is `H_RES`, with the transport write failing,
leaves the ongoing flag false but changes the stored mode field to `L_RES`
— the mode is not "unchanged when the write fails". -/
theorem c4_mode_stored_counterexample :
    initialized_state.meas_mode = BH1750_MEAS_MODE_H_RES ∧
    initialized_state.cont_meas_ongoing = false ∧
    (run ⟨initialized_state, none⟩
      [Cmd.callStartContMeas BH1750_MEAS_MODE_L_RES true,
       Cmd.i2cComplete BH1750_I2C_RESULT_CODE_ERR 0 0]).2.contains
      (Event.userCb BH1750_RESULT_CODE_IO_ERR false) = true ∧
    (run ⟨initialized_state, none⟩
      [Cmd.callStartContMeas BH1750_MEAS_MODE_L_RES true,
       Cmd.i2cComplete BH1750_I2C_RESULT_CODE_ERR 0 0]).1.st.cont_meas_ongoing = false ∧
    (run ⟨initialized_state, none⟩
      [Cmd.callStartContMeas BH1750_MEAS_MODE_L_RES true,
       Cmd.i2cComplete BH1750_I2C_RESULT_CODE_ERR 0 0]).1.st.meas_mode
      = BH1750_MEAS_MODE_L_RES ∧
    BH1750_MEAS_MODE_L_RES ≠ BH1750_MEAS_MODE_H_RES := by
  refine ⟨by decide, by decide, by decide, by decide, by decide, by decide⟩

/-- C4 (amended): `bh1750_start_continuous_measurement` stores the
requested mode at sequence start, before the write is issued; on write
success the ongoing flag becomes true and the mode is kept; on write
failure the ongoing flag is untouched but the stored mode field keeps the
newly requested mode (it is not rolled back). -/
theorem c4_start_cont_amended (s : DriverState) (meas_mode : Nat) (cb : Bool)
    (hm : is_valid_meas_mode meas_mode = true) :
    bh1750_start_continuous_measurement
        (some { s with initialized := true, is_seq_ongoing := false }) meas_mode cb =
      (BH1750_RESULT_CODE_OK,
       some { s with seq_cb := cb, meas_mode := meas_mode, initialized := true, is_seq_ongoing := true },
       some (Pending.i2cWrite I2CCont.startContPart2),
       [Event.i2cWriteCmd (get_start_cont_meas_cmd_code meas_mode)]) ∧
    start_continuous_measurement_part_2 BH1750_I2C_RESULT_CODE_OK
        (some { s with seq_cb := cb, meas_mode := meas_mode, initialized := true, is_seq_ongoing := true }) =
      (some { s with seq_cb := cb, meas_mode := meas_mode, initialized := true, cont_meas_ongoing := true, is_seq_ongoing := false },
       none, if cb then [Event.userCb BH1750_RESULT_CODE_OK false] else []) ∧
    start_continuous_measurement_part_2 BH1750_I2C_RESULT_CODE_ERR
        (some { s with seq_cb := cb, meas_mode := meas_mode, initialized := true, is_seq_ongoing := true }) =
      (some { s with seq_cb := cb, meas_mode := meas_mode, initialized := true, is_seq_ongoing := false },
       none, if cb then [Event.userCb BH1750_RESULT_CODE_IO_ERR false] else []) := by
  refine ⟨?_, ?_, ?_⟩
  · simp [bh1750_start_continuous_measurement, hm, start_sequence,
      send_start_continuous_meas_cmd]
  · simp [start_continuous_measurement_part_2, execute_complete_cb, end_sequence,
      BH1750_I2C_RESULT_CODE_OK]
  · simp [start_continuous_measurement_part_2, execute_complete_cb, end_sequence,
      BH1750_I2C_RESULT_CODE_OK, BH1750_I2C_RESULT_CODE_ERR]

/-- Witness for C4's amended theorem: mode `L_RES` on the freshly created
instance; the failure case keeps the new mode. -/
theorem c4_start_cont_amended_witness :
    is_valid_meas_mode BH1750_MEAS_MODE_L_RES = true ∧
    start_continuous_measurement_part_2 BH1750_I2C_RESULT_CODE_ERR
        (some { created_state test_cfg with seq_cb := true, meas_mode := BH1750_MEAS_MODE_L_RES, initialized := true, is_seq_ongoing := true }) =
      (some { created_state test_cfg with seq_cb := true, meas_mode := BH1750_MEAS_MODE_L_RES, initialized := true, is_seq_ongoing := false },
       none, if true then [Event.userCb BH1750_RESULT_CODE_IO_ERR false] else []) :=
  ⟨by decide,
   (c4_start_cont_amended (created_state test_cfg) BH1750_MEAS_MODE_L_RES true
      (by decide)).2.2⟩

/-- Recombination facts for the measurement-time shadow after the high-bits
update: the high 3 bits read back as written and the low 5 bits are
preserved, for any byte-sized shadow and 3-bit field. -/
theorem mtreg_shadow_bits :
    ∀ m : Nat, m < 256 → ∀ h3 : Nat, h3 < 8 →
      ((m &&& 31) ||| (h3 <<< 5)) >>> 5 = h3 ∧
      ((m &&& 31) ||| (h3 <<< 5)) &&& 31 = m &&& 31 := by decide

/-- C3: for a valid measurement time on an initialized, idle instance with
no continuous measurement ongoing, the set-measurement-time sequence (a)
issues the high-bits write leaving the shadow untouched; (b) on a failed
first write the shadow is completely unchanged and the callback gets
`IoError`; (c) on a successful first write the shadow becomes
`(old &&& 0x1F) ||| ((t >>> 5) <<< 5)` and the low-bits write is issued;
(d) that shadow's high 3 bits are `t >>> 5` and its low 5 bits are the
previous ones; (e) a failed second write keeps that mixed shadow and
reports `IoError`; (f) a successful second write sets the shadow to `t`,
marks the instance initialized and reports `Ok`. -/
theorem c3_set_meas_time_shadow (s : DriverState) (t : Nat) (cb : Bool)
    (h1 : 31 ≤ t) (h2 : t ≤ 254) (hm : s.meas_time < 256) :
    bh1750_set_measurement_time
        (some { s with initialized := true, cont_meas_ongoing := false, is_seq_ongoing := false }) t cb =
      (BH1750_RESULT_CODE_OK,
       some { s with seq_cb := cb, meas_time_to_set := t, initialized := true, cont_meas_ongoing := false, is_seq_ongoing := true },
       some (Pending.i2cWrite I2CCont.setMeasTimePart2),
       [Event.i2cWriteCmd (BH1750_SET_MTREG_HIGH_BIT_CMD ||| (t >>> 5))]) ∧
    set_meas_time_part_2 BH1750_I2C_RESULT_CODE_ERR
        (some { s with seq_cb := cb, meas_time_to_set := t, initialized := true, cont_meas_ongoing := false, is_seq_ongoing := true }) =
      (some { s with seq_cb := cb, meas_time_to_set := t, initialized := true, cont_meas_ongoing := false, is_seq_ongoing := false },
       none, if cb then [Event.userCb BH1750_RESULT_CODE_IO_ERR false] else []) ∧
    set_meas_time_part_2 BH1750_I2C_RESULT_CODE_OK
        (some { s with seq_cb := cb, meas_time_to_set := t, initialized := true, cont_meas_ongoing := false, is_seq_ongoing := true }) =
      (some { s with seq_cb := cb, meas_time_to_set := t, meas_time := (s.meas_time &&& 0x1F) ||| ((t >>> 5) <<< 5), initialized := true, cont_meas_ongoing := false, is_seq_ongoing := true },
       some (Pending.i2cWrite I2CCont.setMeasTimePart3),
       [Event.i2cWriteCmd (BH1750_SET_MTREG_LOW_BIT_CMD ||| (t &&& 0x1F))]) ∧
    (((s.meas_time &&& 0x1F) ||| ((t >>> 5) <<< 5)) >>> 5 = t >>> 5 ∧
     ((s.meas_time &&& 0x1F) ||| ((t >>> 5) <<< 5)) &&& 0x1F = s.meas_time &&& 0x1F) ∧
    set_meas_time_part_3 BH1750_I2C_RESULT_CODE_ERR
        (some { s with seq_cb := cb, meas_time_to_set := t, meas_time := (s.meas_time &&& 0x1F) ||| ((t >>> 5) <<< 5), initialized := true, cont_meas_ongoing := false, is_seq_ongoing := true }) =
      (some { s with seq_cb := cb, meas_time_to_set := t, meas_time := (s.meas_time &&& 0x1F) ||| ((t >>> 5) <<< 5), initialized := true, cont_meas_ongoing := false, is_seq_ongoing := false },
       none, if cb then [Event.userCb BH1750_RESULT_CODE_IO_ERR false] else []) ∧
    set_meas_time_part_3 BH1750_I2C_RESULT_CODE_OK
        (some { s with seq_cb := cb, meas_time_to_set := t, meas_time := (s.meas_time &&& 0x1F) ||| ((t >>> 5) <<< 5), initialized := true, cont_meas_ongoing := false, is_seq_ongoing := true }) =
      (some { s with seq_cb := cb, meas_time_to_set := t, meas_time := t, initialized := true, cont_meas_ongoing := false, is_seq_ongoing := false },
       none, if cb then [Event.userCb BH1750_RESULT_CODE_OK false] else []) := by
  have hvalid : is_valid_meas_time t = true := by
    simp [is_valid_meas_time, BH1750_MIN_MEAS_TIME, BH1750_MAX_MEAS_TIME]
    omega
  have hsh : t >>> 5 = t / 32 := by
    simp [Nat.shiftRight_eq_div_pow]
  have hhigh : ¬ (7 < t >>> 5) := by
    rw [hsh]
    have hd : t / 32 ≤ 254 / 32 := Nat.div_le_div_right h2
    omega
  have hlow : ¬ (31 < t &&& 0x1F) := by
    have ha : t &&& 0x1F ≤ 0x1F := Nat.and_le_right
    omega
  have hbits := mtreg_shadow_bits s.meas_time hm (t >>> 5) (by rw [hsh]; omega)
  refine ⟨?_, ?_, ?_, hbits, ?_, ?_⟩
  · simp [bh1750_set_measurement_time, hvalid, start_sequence, set_meas_time_part_1,
      get_three_msb_of_meas_time, set_mtreg_high_bit, hhigh]
  · simp [set_meas_time_part_2, execute_complete_cb, end_sequence,
      BH1750_I2C_RESULT_CODE_OK, BH1750_I2C_RESULT_CODE_ERR]
  · simp [set_meas_time_part_2, BH1750_I2C_RESULT_CODE_OK, get_three_msb_of_meas_time,
      get_five_lsb_of_meas_time, set_mtreg_low_bit, hlow, BH1750_RESULT_CODE_OK,
      BH1750_I2C_RESULT_CODE_ERR]
  · simp [set_meas_time_part_3, execute_complete_cb, end_sequence,
      BH1750_I2C_RESULT_CODE_OK, BH1750_I2C_RESULT_CODE_ERR]
  · simp [set_meas_time_part_3, execute_complete_cb, end_sequence,
      BH1750_I2C_RESULT_CODE_OK]

/-- Witness for C3 at measurement time 69 on an instance whose shadow is
37: a failed second write leaves the mixed shadow
`(37 &&& 0x1F) ||| ((69 >>> 5) <<< 5) = 69`. -/
theorem c3_set_meas_time_shadow_witness :
    (31 ≤ 69 ∧ 69 ≤ 254 ∧ (conversion_test_state 0 37).meas_time < 256) ∧
    bh1750_set_measurement_time
        (some { conversion_test_state 0 37 with initialized := true, cont_meas_ongoing := false, is_seq_ongoing := false }) 69 true =
      (BH1750_RESULT_CODE_OK,
       some { conversion_test_state 0 37 with seq_cb := true, meas_time_to_set := 69, initialized := true, cont_meas_ongoing := false, is_seq_ongoing := true },
       some (Pending.i2cWrite I2CCont.setMeasTimePart2),
       [Event.i2cWriteCmd (BH1750_SET_MTREG_HIGH_BIT_CMD ||| (69 >>> 5))]) :=
  ⟨⟨by decide, by decide, by decide⟩,
   (c3_set_meas_time_shadow (conversion_test_state 0 37) 69 true
      (by decide) (by decide) (by decide)).1⟩

/-- Discipline required of a sequence step's outcome `r` on an instance
`st`: at most one user-callback invocation, every invocation happens with
the sequence-in-progress flag already cleared, no invocation at all when
the stored callback is null, and a step that invokes the callback arms no
further transport request (it is terminal). -/
def terminal_cb_ok (st : DriverState)
    (r : Option DriverState × Option Pending × List Event) : Prop :=
  (userCbEvents r.2.2).length ≤ 1 ∧
  (∀ rc fl, Event.userCb rc fl ∈ r.2.2 → fl = false) ∧
  (st.seq_cb = false → userCbEvents r.2.2 = []) ∧
  (userCbEvents r.2.2 ≠ [] → r.2.1 = none)

/-- The terminal helper ends the sequence first and only then invokes the
stored callback (if non-null), so the emitted invocation always snapshots a
cleared flag. -/
theorem execute_complete_cb_spec (s : DriverState) (rc : Nat) :
    execute_complete_cb s rc =
      ({ s with is_seq_ongoing := false },
       if s.seq_cb then [Event.userCb rc false] else []) := by
  simp [execute_complete_cb, end_sequence]

set_option maxHeartbeats 2000000

/-- C5: every sequence step — the terminal helper itself, each internal
transport/timer continuation, and each public entry point — clears
`sequence-in-progress` before any user-callback invocation, invokes the
stored callback at most once and only if non-null, and arms no further
transport once it has invoked the callback (public entry points never
invoke it synchronously). -/
theorem c5_terminal_action (s : DriverState) (rc : Nat) (cb p : Bool) (mode t : Nat) :
    terminal_cb_ok s (some (execute_complete_cb s rc).1, none, (execute_complete_cb s rc).2) ∧
    terminal_cb_ok s (generic_i2c_complete_cb rc (some s)) ∧
    terminal_cb_ok s (init_part_2 rc (some s)) ∧
    terminal_cb_ok s (set_meas_time_part_2 rc (some s)) ∧
    terminal_cb_ok s (set_meas_time_part_3 rc (some s)) ∧
    terminal_cb_ok s (read_meas_final_part rc (some s)) ∧
    terminal_cb_ok s (start_continuous_measurement_part_2 rc (some s)) ∧
    terminal_cb_ok s (read_one_time_meas_part_2 rc (some s)) ∧
    terminal_cb_ok s (read_one_time_meas_part_3 (some s)) ∧
    userCbEvents (bh1750_init (some s) cb).2.2.2 = [] ∧
    userCbEvents (bh1750_power_on (some s) cb).2.2.2 = [] ∧
    userCbEvents (bh1750_power_down (some s) cb).2.2.2 = [] ∧
    userCbEvents (bh1750_reset (some s) cb).2.2.2 = [] ∧
    userCbEvents (bh1750_start_continuous_measurement (some s) mode cb).2.2.2 = [] ∧
    userCbEvents (bh1750_read_continuous_measurement (some s) p cb).2.2.2 = [] ∧
    userCbEvents (bh1750_read_one_time_measurement (some s) mode p cb).2.2.2 = [] ∧
    userCbEvents (bh1750_set_measurement_time (some s) t cb).2.2.2 = [] ∧
    userCbEvents (bh1750_destroy (some s) p).2.2.2 = [] := by
  refine ⟨?_, ?_, ?_, ?_, ?_, ?_, ?_, ?_, ?_, ?_, ?_, ?_, ?_, ?_, ?_, ?_, ?_, ?_⟩
  · cases hcb : s.seq_cb <;>
      simp [terminal_cb_ok, userCbEvents, execute_complete_cb_spec, hcb]
  · cases hcb : s.seq_cb <;>
      simp [generic_i2c_complete_cb, terminal_cb_ok, userCbEvents,
        execute_complete_cb_spec, hcb]
  · cases hcb : s.seq_cb <;>
      simp [init_part_2, set_meas_time_part_1, set_mtreg_high_bit, terminal_cb_ok,
        userCbEvents, execute_complete_cb_spec, hcb] <;>
      split_ifs <;> simp
  · cases hcb : s.seq_cb <;>
      simp [set_meas_time_part_2, set_mtreg_low_bit, terminal_cb_ok, userCbEvents,
        execute_complete_cb_spec, hcb] <;>
      split_ifs <;> simp
  · cases hcb : s.seq_cb <;>
      simp [set_meas_time_part_3, terminal_cb_ok, userCbEvents,
        execute_complete_cb_spec, hcb] <;>
      split_ifs <;> simp
  · obtain ⟨r2, lx, hconv⟩ :
        ∃ r2 lx, convert_raw_meas_to_lx s
          (two_big_endian_bytes_to_uint16 s.read_buf0 s.read_buf1) = (r2, lx) :=
      ⟨_, _, rfl⟩
    cases hcb : s.seq_cb <;>
      simp [read_meas_final_part, hconv, terminal_cb_ok, userCbEvents,
        execute_complete_cb_spec, hcb] <;>
      split_ifs <;> simp
  · cases hcb : s.seq_cb <;>
      simp [start_continuous_measurement_part_2, terminal_cb_ok, userCbEvents,
        execute_complete_cb_spec, hcb] <;>
      split_ifs <;> simp
  · cases hcb : s.seq_cb <;>
      simp [read_one_time_meas_part_2, terminal_cb_ok, userCbEvents,
        execute_complete_cb_spec, hcb] <;>
      split_ifs <;> simp
  · simp [read_one_time_meas_part_3, send_read_meas_cmd, terminal_cb_ok, userCbEvents]
  · simp [bh1750_init, send_power_on_cmd, userCbEvents] <;> split_ifs <;> simp
  · simp [bh1750_power_on, send_power_on_cmd, userCbEvents] <;> split_ifs <;> simp
  · simp [bh1750_power_down, send_power_down_cmd, userCbEvents] <;> split_ifs <;> simp
  · simp [bh1750_reset, send_reset_cmd, userCbEvents] <;> split_ifs <;> simp
  · simp [bh1750_start_continuous_measurement, send_start_continuous_meas_cmd,
      userCbEvents] <;> split_ifs <;> simp
  · simp [bh1750_read_continuous_measurement, send_read_meas_cmd, userCbEvents] <;>
      split_ifs <;> simp
  · simp [bh1750_read_one_time_measurement, send_one_time_meas_cmd, userCbEvents] <;>
      split_ifs <;> simp
  · simp [bh1750_set_measurement_time, set_meas_time_part_1, set_mtreg_high_bit,
      userCbEvents] <;> split_ifs <;> simp
  · simp [bh1750_destroy, userCbEvents] <;> split_ifs <;> simp
